import Mathlib

/-!
Verification development for the `eldritch_cube` program (`src/main.rs`):
a single-file glium/winit application that renders one rotating cube.

The shallow embedding below translates the program into Lean:

* Machine `f32` constants are represented by their exact rational values
  (every finite `f32` is a rational number); `f32` arithmetic on them is
  modelled as exact rational arithmetic.
* The winit event-loop closure (`event_loop.run(move |event, _, ctrlflow| …)`,
  lines 120–163 of `main.rs`) becomes a pure step function from
  (dispatch time, current angle, event) to (new angle, optional render
  call, control flow).
* The surrounding winit loop is modelled by `loopStep`/`runTrace`:
  `ControlFlow::Exit` is sticky in winit (once set it cannot be unset and
  the loop dispatches no further events to the handler), which the model
  captures with a terminal `exiting` mode.
* Fallible initialization (`?` on `Display::new`, `VertexBuffer::new`,
  `IndexBuffer::new`, `Program::from_source`) and the per-frame
  `.unwrap()` calls on `target.draw`/`target.finish` are modelled by an
  explicit process-outcome function over injected faults.
-/

/-- Exact rational value of the `f32` literal `0.02`
(`const DTHETA: f32 = 0.02`, `main.rs` line 17). -/
def DTHETA : ℚ := 5368709 / 268435456

/-- Exact rational value of the `f32` constant `PI * 2.0`
(`const PI2: f32 = PI * 2.0`, `main.rs` line 18, with
`std::f32::consts::PI`; the doubling is exact in `f32`). -/
def PI2 : ℚ := 13176795 / 2097152

/-- Rust's `%` on floats is the IEEE remainder with the sign of the
dividend. For a nonnegative dividend and positive divisor (the only way
`%` is used in this program: `theta ≥ 0`, `PI2 > 0`) it agrees with the
floor-based remainder, which is what we define here. -/
def fmod (a b : ℚ) : ℚ := a - b * ⌊a / b⌋

/-- The per-frame angle update, `theta = (theta + DTHETA) % PI2`
(`main.rs` line 162). -/
def thetaStep (θ : ℚ) : ℚ := fmod (θ + DTHETA) PI2

/-- The angle after `n` rendered frames, starting from
`let mut theta = 0.0` (`main.rs` line 118). -/
def thetaAfter : ℕ → ℚ
  | 0 => 0
  | n + 1 => thetaStep (thetaAfter n)

/-- Window-level events (`glium::glutin::event::WindowEvent`). The inner
match on `main.rs` lines 125–131 distinguishes only `CloseRequested`;
the other constructors stand for representative members of its `_` arm
(resize, focus change, keyboard input, cursor movement, window move). -/
inductive WindowEventK
  | closeRequested
  | resized
  | moved
  | focused
  | keyboardInput
  | cursorMoved
  deriving DecidableEq

/-- Start causes carried by `Event::NewEvents` (`glium::glutin::event::StartCause`).
The match on `main.rs` lines 133–137 distinguishes `ResumeTimeReached`
(the timer tick) and `Init`; `poll` and `waitCancelled` are
representative members of its `_ => return` arm. -/
inductive StartCauseK
  | resumeTimeReached
  | init
  | poll
  | waitCancelled
  deriving DecidableEq

/-- Top-level dispatched events (`glium::glutin::event::Event`). The outer
match on `main.rs` lines 124–140 distinguishes window events and
`NewEvents`; the remaining constructors are representative members of
its `_ => return` arm. -/
inductive EventK
  | windowEvent (w : WindowEventK)
  | newEvents (c : StartCauseK)
  | mainEventsCleared
  | redrawRequested
  | deviceEvent
  | suspended
  | loopDestroyed
  deriving DecidableEq

/-- The control-flow value written through the closure's `ctrlflow`
out-parameter: either `ControlFlow::WaitUntil(t)` with `t` in
nanoseconds, or `ControlFlow::Exit`. -/
inductive CtrlFlow
  | waitUntil (t : ℕ)
  | exit
  deriving DecidableEq

/-- `Duration::from_nanos(16_666_667)` (`main.rs` line 121), in nanoseconds. -/
def frameInterval : ℕ := 16666667

/-- The model matrix is fully determined by the arguments of the
`glm::rotate` call (`main.rs` lines 146–150): the identity base matrix,
the current angle, and the (un-normalized) axis `vec3(0.0, 1.0, -1.0)`.
We record those arguments rather than the resulting trigonometric
matrix. -/
structure ModelSpec where
  angle : ℚ
  axis : ℚ × ℚ × ℚ
  deriving DecidableEq

/-- One clear/draw/present cycle (`main.rs` lines 142–160): the clear
color, the depth-clear value, and the model matrix specification used
by the draw call's uniforms. -/
structure RenderCall where
  clearColor : ℚ × ℚ × ℚ × ℚ
  clearDepth : ℚ
  model : ModelSpec
  deriving DecidableEq

/-- The render body executed when control falls out of the event match:
`clear_color_and_depth((0.0, 0.0, 0.0, 1.0), 1.0)`, then a draw with the
model matrix `glm::rotate(identity, theta, vec3(0,1,-1))`, then
`target.finish()` (`main.rs` lines 142–160). -/
def renderFrame (θ : ℚ) : RenderCall :=
  { clearColor := (0, 0, 0, 1), clearDepth := 1
    model := { angle := θ, axis := (0, 1, -1) } }

/-- Result of one invocation of the event-loop closure: the value of
`theta` afterwards, the render call issued (if any), and the final value
written to `ctrlflow`. -/
structure ClosureOut where
  theta : ℚ
  render : Option RenderCall
  ctrl : CtrlFlow
  deriving DecidableEq

/-- One invocation of the closure passed to `event_loop.run`
(`main.rs` lines 120–163). `now` is the value of `Instant::now()` taken
at entry (line 121), in nanoseconds. The closure first sets
`*ctrlflow = WaitUntil(now + 16_666_667ns)`, then matches on the event:
`CloseRequested` overwrites the control flow with `Exit` and returns;
any other window event falls through (`_ => ()`) to the render body;
`NewEvents(ResumeTimeReached)` and `NewEvents(Init)` fall through to the
render body; every other event returns early. The render body issues one
clear/draw/present cycle at the current angle and then advances the
angle (line 162). -/
def closureStep (now : ℕ) (θ : ℚ) (ev : EventK) : ClosureOut :=
  let ctrl := CtrlFlow.waitUntil (now + frameInterval)
  match ev with
  | EventK.windowEvent w =>
    match w with
    | WindowEventK.closeRequested => { theta := θ, render := none, ctrl := CtrlFlow.exit }
    | _ => { theta := thetaStep θ, render := some (renderFrame θ), ctrl := ctrl }
  | EventK.newEvents c =>
    match c with
    | StartCauseK.resumeTimeReached =>
        { theta := thetaStep θ, render := some (renderFrame θ), ctrl := ctrl }
    | StartCauseK.init =>
        { theta := thetaStep θ, render := some (renderFrame θ), ctrl := ctrl }
    | _ => { theta := θ, render := none, ctrl := ctrl }
  | _ => { theta := θ, render := none, ctrl := ctrl }

/-- The spec's driver states: `running` while the loop is live, and the
terminal `exiting` once `ControlFlow::Exit` has been set (winit treats
`Exit` as sticky: once set it cannot be unset and no further events are
handled). -/
inductive DriverMode
  | running
  | exiting
  deriving DecidableEq

/-- Loop-level driver state: the mode together with the mutable `theta`
captured by the closure. -/
structure DriverState where
  mode : DriverMode
  theta : ℚ
  deriving DecidableEq

/-- One loop iteration: in `exiting` mode the winit loop no longer
dispatches events to the closure, so nothing happens; in `running` mode
the closure runs, and writing `ControlFlow::Exit` moves the driver to
the terminal `exiting` mode. -/
def loopStep (s : DriverState) (now : ℕ) (ev : EventK) : DriverState × Option RenderCall :=
  match s.mode with
  | DriverMode.exiting => (s, none)
  | DriverMode.running =>
    let o := closureStep now s.theta ev
    match o.ctrl with
    | CtrlFlow.exit => ({ mode := DriverMode.exiting, theta := o.theta }, o.render)
    | CtrlFlow.waitUntil _ => ({ mode := DriverMode.running, theta := o.theta }, o.render)

/-- Run the driver over a trace of dispatched events, each tagged with
its dispatch time; collects the render calls issued, in order. -/
def runTrace (s : DriverState) : List (ℕ × EventK) → DriverState × List RenderCall
  | [] => (s, [])
  | (t, ev) :: rest =>
    let p := loopStep s t ev
    let q := runTrace p.1 rest
    (q.1, p.2.toList ++ q.2)

lemma fmod_eq_mul_fract (a b : ℚ) (hb : b ≠ 0) :
    fmod a b = b * Int.fract (a / b) := by
  unfold fmod Int.fract
  field_simp

lemma fmod_nonneg (a b : ℚ) (hb : 0 < b) : 0 ≤ fmod a b := by
  rw [fmod_eq_mul_fract a b hb.ne']
  exact mul_nonneg hb.le (Int.fract_nonneg _)

lemma fmod_lt (a b : ℚ) (hb : 0 < b) : fmod a b < b := by
  rw [fmod_eq_mul_fract a b hb.ne']
  calc b * Int.fract (a / b) < b * 1 :=
        (mul_lt_mul_left hb).mpr (Int.fract_lt_one _)
    _ = b := mul_one b

lemma PI2_pos : 0 < PI2 := by norm_num [PI2]

lemma thetaAfter_mem : ∀ n, 0 ≤ thetaAfter n ∧ thetaAfter n < PI2 := by
  intro n
  induction n with
  | zero => exact ⟨le_refl 0, PI2_pos⟩
  | succ n _ =>
    exact ⟨fmod_nonneg _ _ PI2_pos, fmod_lt _ _ PI2_pos⟩

/-- C1: the angle starts at 0; every accepted frame tick (a
`NewEvents(ResumeTimeReached)` dispatch while running) replaces the
angle `θ` by `(θ + DTHETA) % PI2`; the angle after `n` frames satisfies
that same recurrence; and after arbitrarily many frames the angle always
lies in `[0, PI2)`. -/
theorem C1_theta_invariant :
    thetaAfter 0 = 0
    ∧ (∀ (θ : ℚ) (now : ℕ),
        (loopStep ⟨DriverMode.running, θ⟩ now
            (EventK.newEvents StartCauseK.resumeTimeReached)).1.theta
          = fmod (θ + DTHETA) PI2)
    ∧ (∀ n, thetaAfter (n + 1) = fmod (thetaAfter n + DTHETA) PI2)
    ∧ (∀ n, 0 ≤ thetaAfter n ∧ thetaAfter n < PI2) := by
  refine ⟨rfl, ?_, fun n => rfl, thetaAfter_mem⟩
  intro θ now
  rfl

/-- Events on which the closure returns before reaching the render body
without writing `ControlFlow::Exit`: every `NewEvents` start cause other
than `ResumeTimeReached` and `Init` (`_ => return`, `main.rs` line 136),
and every top-level event other than window events and `NewEvents`
(`_ => return`, line 139). Window events are deliberately excluded: the
inner `_ => ()` arm on line 130 falls through to the render body. -/
def ignoredEvent : EventK → Bool
  | EventK.windowEvent _ => false
  | EventK.newEvents StartCauseK.resumeTimeReached => false
  | EventK.newEvents StartCauseK.init => false
  | EventK.newEvents _ => true
  | _ => true

lemma floor_DTHETA_div_PI2 : ⌊DTHETA / PI2⌋ = 0 := by
  rw [Int.floor_eq_zero_iff]
  constructor
  · norm_num [DTHETA, PI2]
  · norm_num [DTHETA, PI2]

lemma thetaStep_zero : thetaStep 0 = DTHETA := by
  unfold thetaStep fmod
  rw [zero_add, floor_DTHETA_div_PI2]
  simp

lemma DTHETA_ne_zero : DTHETA ≠ 0 := by norm_num [DTHETA]

/-- C2 counterexample: a generic window event (`WindowEvent::Focused`)
dispatched while running does change state and does trigger a redraw —
the closure's `_ => ()` arm for window events falls through to the
render body, so a render call is issued and the angle advances away
from 0. -/
theorem C2_counterexample :
    (loopStep ⟨DriverMode.running, 0⟩ 0 (EventK.windowEvent WindowEventK.focused)).2 ≠ none
    ∧ (loopStep ⟨DriverMode.running, 0⟩ 0 (EventK.windowEvent WindowEventK.focused)).1.theta ≠ 0 := by
  constructor
  · show some (renderFrame 0) ≠ none
    simp
  · show thetaStep 0 ≠ 0
    rw [thetaStep_zero]
    exact DTHETA_ne_zero

/-- C2 amended: while running, the events the code actually ignores —
`NewEvents` start causes other than `ResumeTimeReached`/`Init`, and
top-level events other than window events and `NewEvents` — cause no
state change and no clear/draw/present cycle (hence the angle, the model
matrix derived from it, and the driver mode are unchanged). A window
event other than `CloseRequested`, however, triggers a full render cycle
at the current angle and advances the angle, with the mode still
running. -/
theorem C2_amended_ignored_events :
    (∀ (now : ℕ) (θ : ℚ) (ev : EventK), ignoredEvent ev = true →
      loopStep ⟨DriverMode.running, θ⟩ now ev = (⟨DriverMode.running, θ⟩, none))
    ∧ (∀ (now : ℕ) (θ : ℚ) (w : WindowEventK), w ≠ WindowEventK.closeRequested →
      loopStep ⟨DriverMode.running, θ⟩ now (EventK.windowEvent w)
        = (⟨DriverMode.running, thetaStep θ⟩, some (renderFrame θ))) := by
  constructor
  · intro now θ ev h
    cases ev with
    | windowEvent w => cases w <;> simp [ignoredEvent] at h
    | newEvents c => cases c <;> first
      | rfl
      | simp [ignoredEvent] at h
    | mainEventsCleared => rfl
    | redrawRequested => rfl
    | deviceEvent => rfl
    | suspended => rfl
    | loopDestroyed => rfl
  · intro now θ w h
    cases w with
    | closeRequested => exact absurd rfl h
    | resized => rfl
    | moved => rfl
    | focused => rfl
    | keyboardInput => rfl
    | cursorMoved => rfl

/-- Witness for `C2_amended_ignored_events` at concrete inputs: the
`MainEventsCleared` event at time 0 and angle 0 is ignored, and the
`Focused` window event renders and advances the angle. -/
theorem C2_amended_witness :
    loopStep ⟨DriverMode.running, 0⟩ 0 EventK.mainEventsCleared = (⟨DriverMode.running, 0⟩, none)
    ∧ loopStep ⟨DriverMode.running, 0⟩ 0 (EventK.windowEvent WindowEventK.focused)
        = (⟨DriverMode.running, thetaStep 0⟩, some (renderFrame 0)) :=
  ⟨C2_amended_ignored_events.1 0 0 EventK.mainEventsCleared (by decide),
   C2_amended_ignored_events.2 0 0 WindowEventK.focused (by decide)⟩

lemma runTrace_exiting (θ : ℚ) :
    ∀ trace : List (ℕ × EventK),
      runTrace ⟨DriverMode.exiting, θ⟩ trace = (⟨DriverMode.exiting, θ⟩, []) := by
  intro trace
  induction trace with
  | nil => rfl
  | cons head rest ih =>
    obtain ⟨t, ev⟩ := head
    simp [runTrace, loopStep, ih]

/-- C3: a `CloseRequested` window event dispatched while running moves
the driver to the terminal `exiting` mode and issues no render call on
that dispatch; and from `exiting`, any further trace of events — timer
ticks included — issues no render call and leaves the mode `exiting`. -/
theorem C3_close_terminal :
    ∀ (θ : ℚ) (now : ℕ) (trace : List (ℕ × EventK)),
      (loopStep ⟨DriverMode.running, θ⟩ now
          (EventK.windowEvent WindowEventK.closeRequested)).1.mode = DriverMode.exiting
      ∧ (loopStep ⟨DriverMode.running, θ⟩ now
          (EventK.windowEvent WindowEventK.closeRequested)).2 = none
      ∧ (runTrace (loopStep ⟨DriverMode.running, θ⟩ now
          (EventK.windowEvent WindowEventK.closeRequested)).1 trace).2 = []
      ∧ (runTrace (loopStep ⟨DriverMode.running, θ⟩ now
          (EventK.windowEvent WindowEventK.closeRequested)).1 trace).1.mode
          = DriverMode.exiting := by
  intro θ now trace
  refine ⟨rfl, rfl, ?_, ?_⟩
  · show (runTrace ⟨DriverMode.exiting, θ⟩ trace).2 = []
    rw [runTrace_exiting]
  · show (runTrace ⟨DriverMode.exiting, θ⟩ trace).1.mode = DriverMode.exiting
    rw [runTrace_exiting]

/-- C4 counterexample: on the `Init` start cause (the `Initialized`
event) while running, the driver does more than arm the timer — the
`StartCause::Init => ()` arm falls through to the render body, so a
render call is issued and the angle advances away from 0. -/
theorem C4_counterexample :
    (loopStep ⟨DriverMode.running, 0⟩ 0 (EventK.newEvents StartCauseK.init)).2 ≠ none
    ∧ (loopStep ⟨DriverMode.running, 0⟩ 0 (EventK.newEvents StartCauseK.init)).1.theta ≠ 0 := by
  constructor
  · show some (renderFrame 0) ≠ none
    simp
  · show thetaStep 0 ≠ 0
    rw [thetaStep_zero]
    exact DTHETA_ne_zero

/-- C4 amended: on `Initialized` while running, the driver arms the wake
timer for dispatch time plus one frame interval AND renders one frame at
the current angle AND advances the angle by one step; the driver mode
remains running. -/
theorem C4_amended_init_renders :
    ∀ (θ : ℚ) (now : ℕ),
      closureStep now θ (EventK.newEvents StartCauseK.init)
        = { theta := thetaStep θ, render := some (renderFrame θ)
            ctrl := CtrlFlow.waitUntil (now + frameInterval) }
      ∧ (loopStep ⟨DriverMode.running, θ⟩ now
          (EventK.newEvents StartCauseK.init)).1.mode = DriverMode.running := by
  intro θ now
  exact ⟨rfl, rfl⟩

/-- A vertex as declared in `main.rs` lines 20–24: an object-space
position (`coord: [f32; 3]`) and an RGBA color (`rgba: [f32; 4]`),
both represented by their exact rational values. -/
structure Vertex where
  coord : ℚ × ℚ × ℚ
  rgba : ℚ × ℚ × ℚ × ℚ
  deriving DecidableEq

/-- The fixed vertex list `cube: [Vertex; 8]` (`main.rs` lines 38–50). -/
def cube : List Vertex :=
  [ { coord := (1/2, 1/2, 1/2), rgba := (1, 0, 0, 1) },
    { coord := (1/2, -1/2, 1/2), rgba := (1, 0, 0, 1) },
    { coord := (-1/2, -1/2, 1/2), rgba := (1, 0, 0, 1) },
    { coord := (-1/2, 1/2, 1/2), rgba := (1, 0, 0, 1) },
    { coord := (1/2, 1/2, -1/2), rgba := (0, 0, 1, 1) },
    { coord := (1/2, -1/2, -1/2), rgba := (0, 0, 1, 1) },
    { coord := (-1/2, -1/2, -1/2), rgba := (0, 0, 1, 1) },
    { coord := (-1/2, 1/2, -1/2), rgba := (0, 0, 1, 1) } ]

/-- The fixed index list `indices: [u8; 36]` (`main.rs` lines 52–59);
the `u8` values are represented as natural numbers. -/
def indices : List ℕ :=
  [ 0, 1, 2, 0, 2, 3,
    0, 1, 5, 0, 4, 5,
    2, 3, 6, 3, 6, 7,
    5, 6, 7, 4, 5, 7,
    0, 3, 7, 0, 4, 7,
    1, 2, 6, 1, 5, 6 ]

/-- C5: the fixed index list holds exactly 36 values (12 triangles of 3
indices), every value fits in an unsigned 8-bit integer, and every value
lies in `[0, 7]`, hence is a valid position into the 8-vertex store. -/
theorem C5_geometry_bounds :
    indices.length = 36
    ∧ indices.length = 3 * 12
    ∧ indices.all (fun i => decide (i ≤ 7)) = true
    ∧ indices.all (fun i => decide (i < 256)) = true
    ∧ cube.length = 8 :=
  ⟨rfl, rfl, rfl, rfl, rfl⟩

/-- C6 counterexample: the wake timer is not armed after steps 1–5 of
the render algorithm. A tick dispatched at time 0 whose render takes
1 000 000 ns leaves the control flow at `WaitUntil(0 + frameInterval)` —
anchored at dispatch start — not at `WaitUntil((0 + 1000000) +
frameInterval)` as re-arming after the render body would give. -/
theorem C6_counterexample :
    (closureStep 0 0 (EventK.newEvents StartCauseK.resumeTimeReached)).ctrl
      = CtrlFlow.waitUntil (0 + frameInterval)
    ∧ (closureStep 0 0 (EventK.newEvents StartCauseK.resumeTimeReached)).ctrl
      ≠ CtrlFlow.waitUntil ((0 + 1000000) + frameInterval) := by
  refine ⟨rfl, ?_⟩
  intro h
  have : (0 : ℕ) + frameInterval = (0 + 1000000) + frameInterval :=
    CtrlFlow.waitUntil.inj h
  omega

/-- C6 amended: the wake timer is armed at the start of handling each
tick — before steps 1–5, so the deadline is dispatch-start plus
16 666 667 ns and is unaffected by how long the render takes. Because
the next tick is dispatched no earlier than the armed deadline
(here at `now + frameInterval + dur` for a wait overshoot `dur ≥ 0`),
consecutive tick dispatches are separated by at least one frame
interval: a minimum inter-frame period of 16.666667 ms. -/
theorem C6_amended_timer_anchor :
    ∀ (now dur : ℕ) (θ : ℚ),
      (closureStep now θ (EventK.newEvents StartCauseK.resumeTimeReached)).ctrl
        = CtrlFlow.waitUntil (now + frameInterval)
      ∧ (closureStep (now + frameInterval + dur) (thetaStep θ)
            (EventK.newEvents StartCauseK.resumeTimeReached)).ctrl
        = CtrlFlow.waitUntil (now + frameInterval + dur + frameInterval)
      ∧ (now + frameInterval + dur) - now ≥ frameInterval := by
  intro now dur θ
  refine ⟨rfl, rfl, ?_⟩
  omega

/-- C10: on every dispatched event, of any kind, the closure first sets
the control flow to wake at dispatch-start time plus 16 666 667 ns —
the deadline is anchored at `Instant::now()` taken at entry, before any
rendering work — and only the `CloseRequested` branch overrides this
with `Exit`. -/
theorem C10_ctrl_anchor :
    ∀ (now : ℕ) (θ : ℚ) (ev : EventK),
      (closureStep now θ ev).ctrl =
        if ev = EventK.windowEvent WindowEventK.closeRequested then CtrlFlow.exit
        else CtrlFlow.waitUntil (now + frameInterval) := by
  intro now θ ev
  cases ev with
  | windowEvent w => cases w <;> rfl
  | newEvents c => cases c <;> rfl
  | mainEventsCleared => rfl
  | redrawRequested => rfl
  | deviceEvent => rfl
  | suspended => rfl
  | loopDestroyed => rfl

/-- Number of accepted frame ticks (`NewEvents(ResumeTimeReached)`
dispatches) in a trace. -/
def tickCount (tr : List (ℕ × EventK)) : ℕ :=
  (tr.filter fun te => decide (te.2 = EventK.newEvents StartCauseK.resumeTimeReached)).length

/-- A one-tick trace. -/
def traceA : List (ℕ × EventK) :=
  [(0, EventK.newEvents StartCauseK.resumeTimeReached)]

/-- A trace with the same single tick, preceded by a window-focus event. -/
def traceB : List (ℕ × EventK) :=
  [(0, EventK.windowEvent WindowEventK.focused),
   (frameInterval, EventK.newEvents StartCauseK.resumeTimeReached)]

lemma floor_two_DTHETA_div_PI2 : ⌊(DTHETA + DTHETA) / PI2⌋ = 0 := by
  rw [Int.floor_eq_zero_iff]
  constructor
  · norm_num [DTHETA, PI2]
  · norm_num [DTHETA, PI2]

lemma thetaStep_DTHETA : thetaStep DTHETA = DTHETA + DTHETA := by
  unfold thetaStep fmod
  rw [floor_two_DTHETA_div_PI2]
  simp

/-- C9 counterexample: two runs that process the same number of accepted
frame ticks (one each) do not reach the same angle — the extra
window-focus event in the second trace also advances the angle, so the
angle is not a pure function of the tick count alone. -/
theorem C9_counterexample :
    tickCount traceA = tickCount traceB
    ∧ (runTrace ⟨DriverMode.running, 0⟩ traceA).1.theta
      ≠ (runTrace ⟨DriverMode.running, 0⟩ traceB).1.theta := by
  refine ⟨rfl, ?_⟩
  show thetaStep 0 ≠ thetaStep (thetaStep 0)
  rw [thetaStep_zero, thetaStep_DTHETA]
  intro h
  have : DTHETA = 0 := by linarith
  exact DTHETA_ne_zero this

/-- While running, a loop iteration does exactly one of three things:
nothing (an ignored event), one render step (angle advanced, one render
call), or the transition to `exiting` (on `CloseRequested`). -/
lemma loopStep_running_cases (θ : ℚ) (now : ℕ) (ev : EventK) :
    loopStep ⟨DriverMode.running, θ⟩ now ev = (⟨DriverMode.running, θ⟩, none)
    ∨ loopStep ⟨DriverMode.running, θ⟩ now ev
        = (⟨DriverMode.running, thetaStep θ⟩, some (renderFrame θ))
    ∨ loopStep ⟨DriverMode.running, θ⟩ now ev = (⟨DriverMode.exiting, θ⟩, none) := by
  cases ev with
  | windowEvent w => cases w with
    | closeRequested => exact Or.inr (Or.inr rfl)
    | resized => exact Or.inr (Or.inl rfl)
    | moved => exact Or.inr (Or.inl rfl)
    | focused => exact Or.inr (Or.inl rfl)
    | keyboardInput => exact Or.inr (Or.inl rfl)
    | cursorMoved => exact Or.inr (Or.inl rfl)
  | newEvents c => cases c with
    | resumeTimeReached => exact Or.inr (Or.inl rfl)
    | init => exact Or.inr (Or.inl rfl)
    | poll => exact Or.inl rfl
    | waitCancelled => exact Or.inl rfl
  | mainEventsCleared => exact Or.inl rfl
  | redrawRequested => exact Or.inl rfl
  | deviceEvent => exact Or.inl rfl
  | suspended => exact Or.inl rfl
  | loopDestroyed => exact Or.inl rfl

lemma runTrace_theta_count :
    ∀ (trace : List (ℕ × EventK)) (s : DriverState) (k : ℕ),
      s.theta = thetaAfter k →
      (runTrace s trace).1.theta = thetaAfter (k + (runTrace s trace).2.length) := by
  intro trace
  induction trace with
  | nil =>
    intro s k h
    simpa [runTrace] using h
  | cons head rest ih =>
    intro s k h
    obtain ⟨t, ev⟩ := head
    obtain ⟨mode, θ⟩ := s
    cases mode with
    | exiting =>
      have h2 := ih ⟨DriverMode.exiting, θ⟩ k h
      simpa [runTrace, loopStep] using h2
    | running =>
      rcases loopStep_running_cases θ t ev with hc | hc | hc
      · have h2 := ih ⟨DriverMode.running, θ⟩ k h
        simp only [runTrace, hc]
        simpa using h2
      · have h1 : (⟨DriverMode.running, thetaStep θ⟩ : DriverState).theta
            = thetaAfter (k + 1) := by
          exact congrArg thetaStep h
        have h2 := ih ⟨DriverMode.running, thetaStep θ⟩ (k + 1) h1
        simp only [runTrace, hc]
        simp only [Option.toList_some, List.singleton_append, List.length_cons]
        have harith : k + ((runTrace (⟨DriverMode.running, thetaStep θ⟩ : DriverState) rest).2.length + 1)
            = k + 1 + (runTrace (⟨DriverMode.running, thetaStep θ⟩ : DriverState) rest).2.length := by
          omega
        rw [harith]
        exact h2
      · have h2 := ih ⟨DriverMode.exiting, θ⟩ k h
        simp only [runTrace, hc]
        simpa using h2

/-- C9 amended: the angle is deterministic, but as a pure function of
the number of rendered frames rather than of accepted ticks alone: after
any event trace (any timestamps, any mix of events), the final angle is
the n-fold iterate of `thetaStep` from 0 where n is the number of render
calls issued — which counts ticks, the `Init` dispatch, and non-close
window events. Two runs that issue the same number of render calls reach
the same angle, independent of wall-clock timing. -/
theorem C9_amended_determinism :
    ∀ trace : List (ℕ × EventK),
      (runTrace ⟨DriverMode.running, 0⟩ trace).1.theta
        = thetaAfter (runTrace ⟨DriverMode.running, 0⟩ trace).2.length := by
  intro trace
  have h := runTrace_theta_count trace ⟨DriverMode.running, 0⟩ 0 rfl
  simpa using h

/-- The fallible operations of `main`: the four initialization steps
(`Display::new` line 36, `VertexBuffer::new` line 61, `IndexBuffer::new`
line 62, `Program::from_source` line 92) and the two per-frame GPU calls
(`target.draw` line 155, `target.finish` line 160). -/
inductive ProcStep
  | displayNew
  | vertexBufferNew
  | indexBufferNew
  | programFromSource
  | draw
  | finish
  deriving DecidableEq

/-- Fault injection environment: for each fallible operation, `some msg`
means that operation fails with underlying error message `msg`, `none`
means it succeeds. -/
structure FaultModel where
  displayNew : Option String
  vertexBufferNew : Option String
  indexBufferNew : Option String
  programFromSource : Option String
  draw : Option String
  finish : Option String

/-- How the process ends: clean exit with code 0; exit with a non-zero
code and an error message (a `main() -> Result` returning `Err`, which
the Rust runtime reports and turns into exit code 1); or a panic with a
diagnostic message (`.unwrap()` on an `Err`), which also terminates the
process with a non-zero code. -/
inductive ProcOutcome
  | exitSuccess
  | exitFailure (msg : String)
  | panicked (msg : String)
  deriving DecidableEq

/-- The process exit code produced by each outcome (Rust reports `Err`
from `main` with exit code 1, and an aborted panic with 101). -/
def exitCode : ProcOutcome → ℕ
  | ProcOutcome.exitSuccess => 0
  | ProcOutcome.exitFailure _ => 1
  | ProcOutcome.panicked _ => 101

/-- The message produced by `Result::unwrap` on an `Err` carrying the
message `e`. -/
def unwrapMsg (e : String) : String :=
  "called `Result::unwrap()` on an `Err` value: " ++ e

/-- One frame of the render body: `target.draw(..).unwrap()` then
`target.finish().unwrap()` (`main.rs` lines 155–160). A failing call
panics immediately; a failure of `draw` means `finish` is never
reached. Returns the operations attempted and the panic message, if
any. -/
def renderTick (fm : FaultModel) : List ProcStep × Option String :=
  match fm.draw with
  | some e => ([ProcStep.draw], some (unwrapMsg e))
  | none =>
    match fm.finish with
    | some e => ([ProcStep.draw, ProcStep.finish], some (unwrapMsg e))
    | none => ([ProcStep.draw, ProcStep.finish], none)

/-- Render `n` frames, stopping at the first panic. -/
def runFrames (fm : FaultModel) : ℕ → List ProcStep × Option String
  | 0 => ([], none)
  | n + 1 =>
    let r := renderTick fm
    match r.2 with
    | some m => (r.1, some m)
    | none =>
      let rest := runFrames fm n
      (r.1 ++ rest.1, rest.2)

/-- The attempt log of a fully successful initialization, in program
order. -/
def initLog : List ProcStep :=
  [ProcStep.displayNew, ProcStep.vertexBufferNew,
   ProcStep.indexBufferNew, ProcStep.programFromSource]

/-- The whole process: the four initialization steps in program order,
each propagating its error out of `main` via `?` (terminating the
process before any later step runs), then `ticks` frames, a failing one
of which panics. Returns the outcome and the full attempt log. -/
def runProcess (fm : FaultModel) (ticks : ℕ) : ProcOutcome × List ProcStep :=
  match fm.displayNew with
  | some e => (ProcOutcome.exitFailure e, [ProcStep.displayNew])
  | none =>
    match fm.vertexBufferNew with
    | some e =>
        (ProcOutcome.exitFailure e, [ProcStep.displayNew, ProcStep.vertexBufferNew])
    | none =>
      match fm.indexBufferNew with
      | some e =>
          (ProcOutcome.exitFailure e,
            [ProcStep.displayNew, ProcStep.vertexBufferNew, ProcStep.indexBufferNew])
      | none =>
        match fm.programFromSource with
        | some e => (ProcOutcome.exitFailure e, initLog)
        | none =>
          let fr := runFrames fm ticks
          match fr.2 with
          | some m => (ProcOutcome.panicked m, initLog ++ fr.1)
          | none => (ProcOutcome.exitSuccess, initLog ++ fr.1)

lemma runFrames_no_fault (a b c d : Option String) (n : ℕ) :
    (runFrames ⟨a, b, c, d, none, none⟩ n).2 = none := by
  induction n with
  | zero => rfl
  | succ n ih => simp [runFrames, renderTick, ih]

/-- C7: every failure is terminal and attempted exactly once. A failing
initialization step exits the process with the underlying error message
and a non-zero exit code, with no later operation attempted and no step
retried (each step occurs at most once in the attempt log); a failing
per-frame `draw` or `finish` panics with the `unwrap` diagnostic
carrying the underlying error, again with nothing attempted afterwards;
and with no faults the process runs its frames and exits cleanly. -/
theorem C7_fail_fast :
    ∀ (e : String) (a b c d f : Option String) (n : ℕ),
      runProcess ⟨some e, a, b, c, d, f⟩ n
        = (ProcOutcome.exitFailure e, [ProcStep.displayNew])
      ∧ runProcess ⟨none, some e, b, c, d, f⟩ n
        = (ProcOutcome.exitFailure e, [ProcStep.displayNew, ProcStep.vertexBufferNew])
      ∧ runProcess ⟨none, none, some e, c, d, f⟩ n
        = (ProcOutcome.exitFailure e,
            [ProcStep.displayNew, ProcStep.vertexBufferNew, ProcStep.indexBufferNew])
      ∧ runProcess ⟨none, none, none, some e, d, f⟩ n
        = (ProcOutcome.exitFailure e, initLog)
      ∧ runProcess ⟨none, none, none, none, some e, f⟩ (n + 1)
        = (ProcOutcome.panicked (unwrapMsg e), initLog ++ [ProcStep.draw])
      ∧ runProcess ⟨none, none, none, none, none, some e⟩ (n + 1)
        = (ProcOutcome.panicked (unwrapMsg e), initLog ++ [ProcStep.draw, ProcStep.finish])
      ∧ (runProcess ⟨none, none, none, none, none, none⟩ n).1 = ProcOutcome.exitSuccess
      ∧ exitCode (ProcOutcome.exitFailure e) = 1
      ∧ exitCode (ProcOutcome.panicked (unwrapMsg e)) = 101
      ∧ exitCode ProcOutcome.exitSuccess = 0 := by
  intro e a b c d f n
  refine ⟨rfl, rfl, rfl, rfl, rfl, rfl, ?_, rfl, rfl, rfl⟩
  have h := runFrames_no_fault none none none none n
  simp [runProcess, h]

/-- 4x4 matrices over the rationals, standing for GLSL `mat4` values
(with `f32` entries represented exactly). -/
abbrev Mat4 := Matrix (Fin 4) (Fin 4) ℚ

/-- GLSL `vec4(c, w)` for a `vec3` `c`: the homogeneous extension. -/
def vec4 (c : Fin 3 → ℚ) (w : ℚ) : Fin 4 → ℚ := ![c 0, c 1, c 2, w]

/-- The vertex-shader body (`main.rs` lines 64–79):
`gl_Position = p * v * m * vec4(coord, 1.0); color = rgba;`. GLSL `*` is
left-associative, so the position is `((p * v) * m) * vec4(coord, 1.0)`;
the per-vertex color is passed through unmodified. Returns
(clip-space position, output color). -/
def vertMain (m v p : Mat4) (coord : Fin 3 → ℚ) (rgba : Fin 4 → ℚ) :
    (Fin 4 → ℚ) × (Fin 4 → ℚ) :=
  ((p * v * m).mulVec (vec4 coord 1), rgba)

/-- The fragment-shader body (`main.rs` lines 81–90):
`FragColor = color;` — the interpolated color is output directly. -/
def fragMain (color : Fin 4 → ℚ) : Fin 4 → ℚ := color

/-- The uniform names declared in the vertex-shader source
(`uniform mat4 m; uniform mat4 v; uniform mat4 p;`, `main.rs`
lines 68–70), in order of declaration. -/
def vertUniformNames : List String := ["m", "v", "p"]

/-- The vertex attribute names declared in the vertex-shader source
(`in vec3 coord` line 66, `in vec4 rgba` line 72). -/
def vertAttributeNames : List String := ["coord", "rgba"]

/-- The uniform names bound by the driver's draw call
(`uniform! { m: model, v: view, p: projection }`, `main.rs` line 153). -/
def uniformBindingNames : List String := ["m", "v", "p"]

/-- The vertex field names registered with the GPU pipeline
(`implement_vertex!(Vertex, coord, rgba)`, `main.rs` line 26). -/
def vertexFieldNames : List String := ["coord", "rgba"]

/-- C8: the vertex shader computes the clip-space position as
P × V × M × position with homogeneous `w = 1` (the left-associated GLSL
product equals the composed matrix-vector products) and passes the
per-vertex color through unmodified; the fragment shader outputs the
interpolated color directly; and the uniform names are exactly
`m`, `v`, `p` and the attribute names exactly `coord`, `rgba`, on both
sides of the binding contract. -/
theorem C8_shader_contract :
    (∀ (m v p : Mat4) (coord : Fin 3 → ℚ) (rgba : Fin 4 → ℚ),
      vertMain m v p coord rgba
        = (p.mulVec (v.mulVec (m.mulVec (vec4 coord 1))), rgba))
    ∧ (∀ coord : Fin 3 → ℚ, vec4 coord 1 3 = 1)
    ∧ (∀ color : Fin 4 → ℚ, fragMain color = color)
    ∧ vertUniformNames = ["m", "v", "p"]
    ∧ vertAttributeNames = ["coord", "rgba"]
    ∧ uniformBindingNames = vertUniformNames
    ∧ vertexFieldNames = vertAttributeNames := by
  refine ⟨?_, fun coord => rfl, fun color => rfl, rfl, rfl, rfl, rfl⟩
  intro m v p coord rgba
  unfold vertMain
  rw [Matrix.mulVec_mulVec, Matrix.mulVec_mulVec]
